import Mathlib

/-!
Verification of openebsctl: ZFS LocalPV listing and describing, and upgrade-job status.

A shallow embedding of

* `pkg/volume/zfs_locapv.go`  (`GetZFSLocalPVs`, `DescribeZFSLocalPVs`)
* `pkg/upgrade/status/status.go` (`GetJobStatus`, `getPodLogs`, `startLogStream`)

Conventions of the embedding.

* A Go `error` is its message (`String`); a `(value, error)` result of a client
  call is an `Except String value` (on success the returned pointer is taken to
  be non-nil).
* A Go `map[string]T` is a function `String → Option T`; indexing an absent key
  gives the zero value of `T`.
* A run-time panic (index out of range, nil dereference) is an explicit outcome,
  never hidden: a function that can panic returns a `Result`.
* Text written to a stream is the list of chunks written, one per `fmt` call.
* The Kubernetes client (`pkg/client`) and the helpers of `pkg/util` are not part
  of the sources at hand; they are parameters (`K8sClient`, `Util`).
-/

namespace Openebsctl

/-! ## Data model (the fields the code reads) -/

/-- Go map of strings: `none` for an absent key. -/
abbrev StringMap := String → Option String

/-- Indexing a Go `map[string]string`: an absent key (or a nil map) reads as the empty string. -/
def StringMap.index (m : StringMap) (k : String) : String :=
  match m k with
  | some v => v
  | none => ""

/-- The type `corev1.PersistentVolumePhase`, a named string type. -/
structure PersistentVolumePhase where
  val : String
deriving DecidableEq, Repr

/-- The type `corev1.PersistentVolumeAccessMode`, a named string type. -/
structure PersistentVolumeAccessMode where
  val : String
deriving DecidableEq, Repr

/-- The type `resource.Quantity`, represented by its canonical text (what `String()` returns). -/
structure Quantity where
  text : String
deriving DecidableEq, Repr

/-- The method `Quantity.String()`. -/
def Quantity.String (q : Quantity) : String := q.text

/-- The type `corev1.ResourceList`: a map from resource name to quantity. -/
structure ResourceList where
  entries : String → Option Quantity

/-- The method `ResourceList.Storage()`: the entry of resource "storage", or the zero quantity
(whose text is "0") when the entry is absent. -/
def ResourceList.Storage (rl : ResourceList) : Quantity :=
  match rl.entries "storage" with
  | some q => q
  | none => ⟨"0"⟩

/-- The `metav1.ObjectMeta` fields the code reads. -/
structure ObjectMeta where
  Name : String
  Namespace : String
  Labels : StringMap

/-- The type `corev1.CSIPersistentVolumeSource` (driver descriptor). -/
structure CSIPersistentVolumeSource where
  Driver : String

/-- The type `corev1.ObjectReference` (claim reference). -/
structure ObjectReference where
  Name : String

/-- The type `corev1.PersistentVolumeSpec`; `CSI` and `ClaimRef` are pointers (`none` is nil). -/
structure PersistentVolumeSpec where
  Capacity : ResourceList
  StorageClassName : String
  AccessModes : List PersistentVolumeAccessMode
  CSI : Option CSIPersistentVolumeSource
  ClaimRef : Option ObjectReference

/-- The type `corev1.PersistentVolumeStatus`. -/
structure PersistentVolumeStatus where
  Phase : PersistentVolumePhase

/-- The type `corev1.PersistentVolume`. -/
structure PersistentVolume where
  meta : ObjectMeta
  Spec : PersistentVolumeSpec
  Status : PersistentVolumeStatus

/-- The promoted field `pv.Name`. -/
def PersistentVolume.Name (pv : PersistentVolume) : String := pv.meta.Name

/-- The type `corev1.PersistentVolumeList`. -/
structure PersistentVolumeList where
  Items : List PersistentVolume

/-- The ZFS volume spec fields the code reads. -/
structure ZFSVolumeSpec where
  VolumeType : String
  PoolName : String
  FsType : String
  Compression : String
  Dedup : String
  OwnerNodeID : String
  RecordSize : String

/-- The ZFS volume status. -/
structure ZFSVolStatus where
  State : String

/-- The ZFSVolume custom resource. -/
structure ZFSVolume where
  meta : ObjectMeta
  Spec : ZFSVolumeSpec
  Status : ZFSVolStatus

/-- The promoted field `zvol.Namespace`. -/
def ZFSVolume.Namespace (z : ZFSVolume) : String := z.meta.Namespace

/-- The promoted field `zvol.Labels`. -/
def ZFSVolume.Labels (z : ZFSVolume) : StringMap := z.meta.Labels

/-- The Go zero value of `ZFSVolume`: what `zvolMap[name]` yields for an absent name. -/
def ZFSVolume.zero : ZFSVolume :=
  { meta := { Name := "", Namespace := "", Labels := fun _ => none }
    Spec := { VolumeType := "", PoolName := "", FsType := "", Compression := "", Dedup := "",
              OwnerNodeID := "", RecordSize := "" }
    Status := { State := "" } }

/-- The ZFSVolumeList custom resource list. -/
structure ZFSVolumeList where
  Items : List ZFSVolume

/-- The type `appsv1.StatefulSet` (controller workload); only its labels are read. -/
structure StatefulSet where
  Labels : StringMap

/-- The type `corev1.Pod`. -/
structure Pod where
  Name : String
deriving DecidableEq, Repr

/-- The type `corev1.PodList`. -/
structure PodList where
  Items : List Pod

/-- The type `batchV1.Job`. -/
structure Job where
  Name : String
deriving DecidableEq, Repr

/-- The type `batchV1.JobList`. -/
structure JobList where
  Items : List Job

/-- One value of a `[]interface{}` cell list: the dynamic types the code stores. -/
inductive Cell where
  | str (s : String)
  | phase (p : PersistentVolumePhase)
  | accessMode (m : PersistentVolumeAccessMode)
deriving DecidableEq, Repr

/-- The type `metav1.TableRow`. -/
structure TableRow where
  Cells : List Cell
deriving DecidableEq, Repr

/-- The type `util.ZFSVolDesc`: the value handed to the describe template. -/
structure ZFSVolDesc where
  AccessMode : String
  Capacity : String
  CSIDriver : String
  Name : String
  Namespace : String
  PVC : String
  VolumePhase : PersistentVolumePhase
  StorageClass : String
  Version : String
  Status : String
  VolumeType : String
  PoolName : String
  FileSystem : String
  Compression : String
  Dedup : String
  NodeID : String
  Recordsize : String
deriving DecidableEq, Repr

/-! ## Outcomes -/

/-- Outcome of a Go call that may panic: a panic with its message, or the returned value. -/
inductive Result (α : Type) where
  | panicked (msg : String)
  | ret (val : α)
deriving DecidableEq, Repr

/-- The run-time panic of indexing an empty slice at 0. -/
def indexPanic : String := "runtime error: index out of range [0] with length 0"

/-- The run-time panic of dereferencing a nil pointer. -/
def nilPanic : String := "runtime error: invalid memory address or nil pointer dereference"

/-- How a run of a procedure writing to standard output ends. -/
inductive Status where
  | returned
  | exited (code : Int)
  | panicked (msg : String)
deriving DecidableEq, Repr

/-- A run of a procedure: the chunks written to standard output, and how it ended. -/
structure Run where
  stdout : List String
  status : Status
deriving DecidableEq, Repr

/-- Sequencing: the second run happens only when the first one returned. -/
def Run.andThen (r : Run) (next : Run) : Run :=
  match r.status with
  | .returned => ⟨r.stdout ++ next.stdout, next.status⟩
  | _ => r

/-- A run that writes one chunk and returns. -/
def Run.print (s : String) : Run := ⟨[s], .returned⟩

/-- A run that does nothing. -/
def Run.skip : Run := ⟨[], .returned⟩

/-! ## Parameters: `pkg/util` and `pkg/client` -/

/-- The type `util.ReturnType`, with the two constants the code uses. -/
inductive ReturnType where
  | List
  | Map
deriving DecidableEq, Repr

/-- The type `util.Key`: `unset` is the zero value, `Name` the constant `util.Name`. -/
inductive Key where
  | unset
  | Name
deriving DecidableEq, Repr

/-- The type `util.MapOptions`; the zero value is `MapOptions.mk Key.unset`. -/
structure MapOptions where
  Key : Key
deriving DecidableEq, Repr

/-- The constants and helpers of `pkg/util` that the code uses. -/
structure Util where
  ZFSCSIDriver : String
  ZFSLocalPVcsiControllerLabelValue : String
  ConvertToIBytes : String → String
  AccessModeToString : List PersistentVolumeAccessMode → String

/-- The methods of `client.K8sClient` that the code calls; a client value is one cluster state
as seen through these calls. `GetZFSVols` returns `(list, map, err)`: on success the pair of
the list and the map. `StartPodLogsStream` is given by the run it performs (what it writes and
how it ends). -/
structure K8sClient where
  GetZFSVols : List String → ReturnType → String → MapOptions →
    Except String (ZFSVolumeList × (String → Option ZFSVolume))
  GetCSIControllerSTS : String → Except String StatefulSet
  GetBatchJobs : String → String → Except String JobList
  GetPods : String → String → String → Except String PodList
  GetPodLogs : Pod → String → String
  StartPodLogsStream : Pod → String → Run

/-! ## `pkg/volume/zfs_locapv.go` -/

/-- What `GetZFSLocalPVs` produces: the lines written to standard error, and either a panic or the
returned pair `(rows, err)`. -/
structure ListRun where
  stderr : List String
  result : Result (List TableRow × Option String)
deriving DecidableEq, Repr

/-- Outcome of one iteration of the loop over `pvList.Items`. -/
inductive Iter where
  | skip
  | row (r : TableRow)
  | panicked (msg : String)
deriving DecidableEq, Repr

/-- Lines 58-64 and 111-117: the version label of the controller, "N/A" when the lookup fails
or the label is empty. -/
def controllerVersion (sts : Except String StatefulSet) : String :=
  let version := match sts with
    | .ok CSIctrl => CSIctrl.Labels.index "openebs.io/version"
    | .error _ => ""
  if version = "" then "N/A" else version

/-- Lines 69-96: the body of the loop of `GetZFSLocalPVs` for one PersistentVolume; the first
component is what the iteration writes to standard error. -/
def zfsLoopBody (u : Util) (zvolMap : String → Option ZFSVolume) (version openebsNS : String)
    (pv : PersistentVolume) : List String × Iter :=
  let name := pv.Name
  let capacity := u.ConvertToIBytes pv.Spec.Capacity.Storage.String
  let sc := pv.Spec.StorageClassName
  let attached := pv.Status.Phase
  match pv.Spec.CSI with
  | some csi =>
    if csi.Driver = u.ZFSCSIDriver then
      let found := zvolMap pv.Name
      let zvol := match found with
        | some z => z
        | none => ZFSVolume.zero
      let warn := match found with
        | some _ => []
        | none => ["couldn't find zfs localpv volume " ++ pv.Name ++ "\n"]
      let ns := zvol.Namespace
      if openebsNS ≠ "" ∧ openebsNS ≠ ns then
        (warn, .skip)
      else
        let customStatus := zvol.Status.State
        let attachedNode := zvol.Labels.index "kubernetes.io/nodename"
        match pv.Spec.AccessModes with
        | [] => (warn, .panicked indexPanic)
        | accessMode :: _ =>
          (warn, .row ⟨[.str ns, .str name, .str customStatus, .str version, .str capacity,
            .str sc, .phase attached, .accessMode accessMode, .str attachedNode]⟩)
    else
      ([], .skip)
  | none => ([], .skip)

/-- Lines 66-98: the loop over `pvList.Items`, appending to `rows`; a panic ends it. -/
def zfsLoop (body : PersistentVolume → List String × Iter) :
    List PersistentVolume → List TableRow → List String × Result (List TableRow)
  | [], rows => ([], .ret rows)
  | pv :: rest, rows =>
    match body pv with
    | (w, .skip) =>
      let r := zfsLoop body rest rows
      (w ++ r.1, r.2)
    | (w, .row r) =>
      let q := zfsLoop body rest (rows ++ [r])
      (w ++ q.1, q.2)
    | (w, .panicked m) => (w, .panicked m)

/-- The function `GetZFSLocalPVs` (lines 52-99); `c` and `pvList` are what the two pointer
arguments refer to (both taken to be non-nil). -/
def GetZFSLocalPVs (u : Util) (c : K8sClient) (pvList : PersistentVolumeList)
    (openebsNS : String) : ListRun :=
  match c.GetZFSVols [] .Map "" ⟨.Name⟩ with
  | .error _ => ⟨[], .ret ([], some "failed to list ZFSVolumes")⟩
  | .ok (_, zvolMap) =>
    let version := controllerVersion (c.GetCSIControllerSTS "openebs-zfs-controller")
    match zfsLoop (zfsLoopBody u zvolMap version openebsNS) pvList.Items [] with
    | (w, .panicked m) => ⟨w, .panicked m⟩
    | (w, .ret rows) => ⟨w, .ret (rows, none)⟩

/-- What `DescribeZFSLocalPVs` produces: the values rendered through
`util.PrintByTemplate("volume", zfsVolInfo, v)`, and either a panic or the returned error. -/
structure DescribeRun where
  rendered : List ZFSVolDesc
  result : Result (Option String)
deriving DecidableEq, Repr

/-- The function `DescribeZFSLocalPVs` (lines 102-144); `vol = none` is the nil pointer. -/
def DescribeZFSLocalPVs (u : Util) (c : K8sClient) (vol : Option PersistentVolume) :
    DescribeRun :=
  match vol with
  | none => ⟨[], .ret (some "ZFS volume nil")⟩
  | some vol =>
    match c.GetZFSVols [vol.Name] .List "" ⟨.unset⟩ with
    | .error err => ⟨[], .ret (some err)⟩
    | .ok (zvols, _) =>
      match zvols.Items with
      | [] => ⟨[], .panicked indexPanic⟩
      | zvol :: _ =>
        let version := controllerVersion (c.GetCSIControllerSTS u.ZFSLocalPVcsiControllerLabelValue)
        let accessMode := u.AccessModeToString vol.Spec.AccessModes
        let capacity := vol.Spec.Capacity.Storage.String
        match vol.Spec.CSI with
        | none => ⟨[], .panicked nilPanic⟩
        | some csi =>
          match vol.Spec.ClaimRef with
          | none => ⟨[], .panicked nilPanic⟩
          | some claimRef =>
            let v : ZFSVolDesc :=
              { AccessMode := accessMode
                Capacity := capacity
                CSIDriver := csi.Driver
                Name := vol.Name
                Namespace := zvol.Namespace
                PVC := claimRef.Name
                VolumePhase := vol.Status.Phase
                StorageClass := vol.Spec.StorageClassName
                Version := version
                Status := zvol.Status.State
                VolumeType := zvol.Spec.VolumeType
                PoolName := zvol.Spec.PoolName
                FileSystem := zvol.Spec.FsType
                Compression := zvol.Spec.Compression
                Dedup := zvol.Spec.Dedup
                NodeID := zvol.Spec.OwnerNodeID
                Recordsize := zvol.Spec.RecordSize }
            ⟨[v], .ret none⟩

/-- The rows handed back to the caller; there are none when the call panics. -/
def ListRun.rows (r : ListRun) : List TableRow :=
  match r.result with
  | .ret (rows, _) => rows
  | .panicked _ => []

/-- A PersistentVolume provisioned by the ZFS driver: its CSI descriptor is present and names
the driver constant (the test of line 76). -/
def isZFS (u : Util) (pv : PersistentVolume) : Bool :=
  match pv.Spec.CSI with
  | some csi => decide (csi.Driver = u.ZFSCSIDriver)
  | none => false

/-- The row, if any, that one iteration of the loop appends. -/
def Iter.row? : Iter → Option TableRow
  | .row r => some r
  | _ => none

/-- The row `r` was built by the loop of `GetZFSLocalPVs` from the PersistentVolume `pv`, with
the volume map and the controller version that client `c` supplies. -/
def RowBuiltFrom (u : Util) (c : K8sClient) (openebsNS : String) (pv : PersistentVolume)
    (r : TableRow) : Prop :=
  ∃ zvols, c.GetZFSVols [] .Map "" ⟨.Name⟩ = .ok zvols ∧
    (zfsLoopBody u zvols.2 (controllerVersion (c.GetCSIControllerSTS "openebs-zfs-controller"))
      openebsNS pv).2 = .row r

/-! ## `pkg/upgrade/status/status.go` -/

/-- Lines 70-79: the body of the loop of `getPodLogs` for one pod. -/
def podLogsBody (k : K8sClient) (nspace : String) (pod : Pod) : List String :=
  let logs := k.GetPodLogs pod nspace
  if logs = "" then
    ["From Pod: " ++ pod.Name ++ "\n", "-> No recent logs from the pod", "\n"]
  else
    ["From Pod: " ++ pod.Name ++ "\n", logs ++ "\n"]

/-- The function `getPodLogs` (lines 61-84): the chunks it writes to standard output. -/
def getPodLogs (k : K8sClient) (name : String) (nspace : String) : List String :=
  match k.GetPods ("job-name=" ++ name) "" nspace with
  | .error err => ["error getting pods of job " ++ name ++ " : err " ++ err ++ "\n"]
  | .ok podList =>
    (podList.Items.map (podLogsBody k nspace)).flatten ++
      (if podList.Items.length = 0 then ["No pods are running for this job\n"] else [])

/-- The function `startLogStream` (lines 87-105); `OpenebsNs` is the variable
`upgrade.OpenebsNs`. -/
def startLogStream (k : K8sClient) (OpenebsNs : String) (jobList : JobList) : Run :=
  match jobList.Items with
  | [] => ⟨[], .panicked indexPanic⟩
  | job0 :: _ =>
    let jobName := job0.Name
    match k.GetPods ("job-name=" ++ jobName) "" OpenebsNs with
    | .error err =>
      ⟨["error getting pods of job " ++ jobName ++ " : err " ++ err ++ "\n"], .returned⟩
    | .ok podList =>
      if podList.Items.length = 0 then
        ⟨["No pods are running for the job: " ++ jobName ++ "\n"], .exited 0⟩
      else
        match podList.Items with
        | [] => ⟨[], .panicked indexPanic⟩
        | pod0 :: _ => k.StartPodLogsStream pod0 OpenebsNs

/-- Lines 51-57: the body of the loop of `GetJobStatus` for one job. -/
def jobStatusBody (k : K8sClient) (nspace : String) (job : Job) : List String :=
  ["***************************************\n", "Job Name:  " ++ job.Name ++ "\n"] ++
    getPodLogs k job.Name nspace ++ ["\n"]

/-- The function `GetJobStatus` (lines 31-58); `k` is the client made by `client.NewK8sClient()`,
`OpenebsNs` the variable `upgrade.OpenebsNs`, `WaitFlag` the package variable of that name. -/
def GetJobStatus (k : K8sClient) (OpenebsNs : String) (WaitFlag : Bool) : Run :=
  let nspace := OpenebsNs
  match k.GetBatchJobs nspace "cas-type=jiva,name=jiva-upgrade" with
  | .error err => Run.print ("Error getting jiva-upgrade jobs: " ++ err ++ "\n")
  | .ok joblist =>
    (if joblist.Items.length = 0 then
        Run.print ("No upgrade-jobs Found in " ++ OpenebsNs ++ " namespace")
      else Run.skip).andThen
    ((if WaitFlag then startLogStream k OpenebsNs joblist else Run.skip).andThen
    ⟨(joblist.Items.map (jobStatusBody k nspace)).flatten ++
        ["***************************************\n"], .returned⟩)

/-- The nine cells of a row, in the order of lines 93-95. -/
def zfsRow (ns name customStatus version capacity sc : String) (attached : PersistentVolumePhase)
    (accessMode : PersistentVolumeAccessMode) (attachedNode : String) : TableRow :=
  ⟨[.str ns, .str name, .str customStatus, .str version, .str capacity, .str sc,
    .phase attached, .accessMode accessMode, .str attachedNode]⟩

/-- The empty-filter half of claim C4, for one input: with the empty namespace filter, every
ZFS PersistentVolume of the list that has a ZFS volume of its name gets a row. -/
def EmptyFilterYieldsRow (u : Util) (c : K8sClient) (pvList : PersistentVolumeList) : Prop :=
  ∀ pv ∈ pvList.Items, isZFS u pv = true →
    ∀ zvols, c.GetZFSVols [] .Map "" ⟨.Name⟩ = .ok zvols →
      ∀ zv, zvols.2 pv.Name = some zv →
        ∃ r ∈ (GetZFSLocalPVs u c pvList "").rows, RowBuiltFrom u c "" pv r

/-! ## Sample cluster objects -/

/-- Sample helpers and constants of `pkg/util`. -/
def sampleUtil : Util :=
  { ZFSCSIDriver := "zfs.csi.openebs.io"
    ZFSLocalPVcsiControllerLabelValue := "openebs-zfs-controller"
    ConvertToIBytes := fun s => if s = "4Gi" then "4.0GiB" else s
    AccessModeToString := fun ms => String.intercalate "," (ms.map (fun m => m.val)) }

/-- A sample PersistentVolume with the given name, CSI driver and access modes. -/
def samplePV (name driver : String) (modes : List PersistentVolumeAccessMode) :
    PersistentVolume :=
  { meta := { Name := name, Namespace := "", Labels := fun _ => none }
    Spec := { Capacity := ⟨fun r => if r = "storage" then some ⟨"4Gi"⟩ else none⟩
              StorageClassName := "zfs-sc-1"
              AccessModes := modes
              CSI := some ⟨driver⟩
              ClaimRef := some ⟨"claim-1"⟩ }
    Status := { Phase := ⟨"Bound"⟩ } }

/-- A ZFS PersistentVolume "pvc-1" with one access mode. -/
def zfsPV1 : PersistentVolume := samplePV "pvc-1" "zfs.csi.openebs.io" [⟨"ReadWriteOnce"⟩]

/-- A PersistentVolume "pvc-2" of another driver. -/
def jivaPV1 : PersistentVolume := samplePV "pvc-2" "jiva.csi.openebs.io" [⟨"ReadWriteOnce"⟩]

/-- A ZFS volume "pvc-1" in namespace "zfslocalpv", on node "node1". -/
def zfsVol1 : ZFSVolume :=
  { meta := { Name := "pvc-1", Namespace := "zfslocalpv"
              Labels := fun k => if k = "kubernetes.io/nodename" then some "node1" else none }
    Spec := { VolumeType := "DATASET", PoolName := "zfspv-pool", FsType := "zfs",
              Compression := "off", Dedup := "off", OwnerNodeID := "node1", RecordSize := "4k" }
    Status := { State := "Ready" } }

/-- A controller workload labelled with version 1.9.0. -/
def zfsCtrlSTS : StatefulSet :=
  { Labels := fun k => if k = "openebs.io/version" then some "1.9.0" else none }

/-- A sample client: `zvols` are the ZFS volumes of the cluster (`none` makes listing them fail),
`sts` answers the controller lookup, `jobs` the job listing, `pods` every pod listing, and `logs`
gives the log text of a pod by name. -/
def sampleClient (zvols : Option (List ZFSVolume)) (sts : Except String StatefulSet)
    (jobs : Except String (List Job)) (pods : Except String (List Pod))
    (logs : String → String) : K8sClient :=
  { GetZFSVols := fun names _ _ _ =>
      match zvols with
      | none => .error "failed to list ZFSVolumes"
      | some zs =>
        .ok (⟨zs.filter (fun z => names.isEmpty || names.contains z.meta.Name)⟩,
          fun n => zs.find? (fun z => z.meta.Name == n))
    GetCSIControllerSTS := fun _ => sts
    GetBatchJobs := fun _ _ => jobs.map JobList.mk
    GetPods := fun _ _ _ => pods.map PodList.mk
    GetPodLogs := fun pod _ => logs pod.Name
    StartPodLogsStream := fun pod _ => ⟨[logs pod.Name], .exited 0⟩ }

/-- A cluster with the ZFS volume `zfsVol1` and a labelled controller, and no jobs. -/
def clusterOneVol : K8sClient :=
  sampleClient (some [zfsVol1]) (.ok zfsCtrlSTS) (.ok []) (.ok []) (fun _ => "")

/-- A cluster with no ZFS volume at all (listing succeeds), a labelled controller, no jobs. -/
def clusterNoVol : K8sClient :=
  sampleClient (some []) (.ok zfsCtrlSTS) (.ok []) (.ok []) (fun _ => "")

/-- A cluster with the ZFS volume `zfsVol1` whose controller workload is not found. -/
def clusterNoCtrl : K8sClient :=
  sampleClient (some [zfsVol1]) (.error "not found") (.ok []) (.ok []) (fun _ => "")

/-- A cluster whose listing of ZFS volumes fails. -/
def clusterListFails : K8sClient :=
  sampleClient none (.ok zfsCtrlSTS) (.ok []) (.ok []) (fun _ => "")

/-- A cluster with one upgrade job "jiva-upgrade-1" owning the pods "pod-a" (with log text) and
"pod-b" (with an empty log). -/
def clusterOneJob : K8sClient :=
  sampleClient (some []) (.error "not found") (.ok [⟨"jiva-upgrade-1"⟩])
    (.ok [⟨"pod-a"⟩, ⟨"pod-b"⟩]) (fun n => if n = "pod-a" then "upgrade done" else "")

/-- What claim C9 says is written for one pod: the "From Pod:" line, immediately followed by the
pod's log text, or by the line "-> No recent logs from the pod" exactly when the log is empty. -/
def podReport (name logs : String) : List String :=
  ["From Pod: " ++ name ++ "\n"] ++
    (if logs = "" then ["-> No recent logs from the pod", "\n"] else [logs ++ "\n"])

/-! ## Lemmas on the loop of `GetZFSLocalPVs` -/

theorem zfsLoop_acc (body : PersistentVolume → List String × Iter) (l : List PersistentVolume)
    (acc : List TableRow) :
    zfsLoop body l acc =
      ((zfsLoop body l []).1,
        match (zfsLoop body l []).2 with
        | .ret rows => .ret (acc ++ rows)
        | .panicked m => .panicked m) := by
  induction l generalizing acc with
  | nil => simp [zfsLoop]
  | cons pv rest ih =>
    rcases hb : body pv with ⟨w, it⟩
    cases it with
    | skip =>
      simp only [zfsLoop, hb]
      rw [ih acc]
    | row r =>
      simp only [zfsLoop, hb]
      rw [ih (acc ++ [r]), ih ([] ++ [r])]
      cases (zfsLoop body rest []).2 <;> simp
    | panicked m => simp [zfsLoop, hb]

theorem zfsLoopBody_not_zfs (u : Util) (zvolMap : String → Option ZFSVolume)
    (version openebsNS : String) (pv : PersistentVolume) (h : isZFS u pv = false) :
    zfsLoopBody u zvolMap version openebsNS pv = ([], .skip) := by
  unfold isZFS at h
  unfold zfsLoopBody
  cases hc : pv.Spec.CSI with
  | none => simp
  | some csi =>
    rw [hc] at h
    have hd : csi.Driver ≠ u.ZFSCSIDriver := by simpa using h
    simp [hd]

theorem zfsLoop_filter (u : Util) (zvolMap : String → Option ZFSVolume)
    (version openebsNS : String) (l : List PersistentVolume) (acc : List TableRow) :
    zfsLoop (zfsLoopBody u zvolMap version openebsNS) (l.filter (isZFS u)) acc =
      zfsLoop (zfsLoopBody u zvolMap version openebsNS) l acc := by
  induction l generalizing acc with
  | nil => rfl
  | cons pv rest ih =>
    cases hz : isZFS u pv with
    | false =>
      rw [List.filter_cons_of_neg (by simp [hz])]
      simp only [zfsLoop, zfsLoopBody_not_zfs u zvolMap version openebsNS pv hz]
      rw [ih acc]
      simp
    | true =>
      rw [List.filter_cons_of_pos (by simp [hz])]
      rcases hb : zfsLoopBody u zvolMap version openebsNS pv with ⟨w, it⟩
      cases it <;> simp only [zfsLoop, hb, ih]

theorem Iter.row?_eq_some (it : Iter) (r : TableRow) : it.row? = some r ↔ it = .row r := by
  cases it <;> simp [Iter.row?]

theorem zfsLoop_ret (body : PersistentVolume → List String × Iter) (l : List PersistentVolume)
    (rows : List TableRow) (h : (zfsLoop body l []).2 = .ret rows) :
    rows = l.filterMap (fun pv => (body pv).2.row?) := by
  induction l generalizing rows with
  | nil =>
    simp only [zfsLoop] at h
    simpa using (Result.ret.inj h).symm
  | cons pv rest ih =>
    rcases hb : body pv with ⟨w, it⟩
    cases it with
    | skip =>
      simp only [zfsLoop, hb] at h
      have h2 := ih rows h
      rw [List.filterMap_cons, hb, ← h2]
      simp [Iter.row?]
    | row r =>
      simp only [zfsLoop, hb] at h
      rw [zfsLoop_acc] at h
      cases hrest : (zfsLoop body rest []).2 with
      | panicked m => simp [hrest] at h
      | ret rows1 =>
        simp only [hrest] at h
        have h1 := (Result.ret.inj h).symm
        have h2 := ih rows1 hrest
        rw [List.filterMap_cons, hb, ← h2, h1]
        simp [Iter.row?]
    | panicked m => simp [zfsLoop, hb] at h

theorem zfsLoop_no_panic (body : PersistentVolume → List String × Iter)
    (l : List PersistentVolume) (h : ∀ pv ∈ l, ∀ m, (body pv).2 ≠ .panicked m) :
    (zfsLoop body l []).2 = .ret (l.filterMap (fun pv => (body pv).2.row?)) := by
  induction l with
  | nil => simp [zfsLoop]
  | cons pv rest ih =>
    have ih1 := ih (fun q hq => h q (List.mem_cons_of_mem _ hq))
    rcases hb : body pv with ⟨w, it⟩
    cases it with
    | skip =>
      simp only [zfsLoop, hb]
      rw [List.filterMap_cons, hb, ih1]
      simp [Iter.row?]
    | row r =>
      simp only [zfsLoop, hb]
      rw [zfsLoop_acc, List.filterMap_cons, hb, ih1]
      simp [Iter.row?]
    | panicked m => exact absurd (by rw [hb]) (h pv (List.mem_cons_self _ _) m)

theorem filterMap_map_sublist {α β γ : Type} (f : α → Option β) (g : β → γ) (k : α → γ)
    (hfg : ∀ a b, f a = some b → g b = k a) (l : List α) :
    List.Sublist ((l.filterMap f).map g) (l.map k) := by
  induction l with
  | nil => simp
  | cons a rest ih =>
    cases hf : f a with
    | none => simpa [List.filterMap_cons, hf] using ih.cons (k a)
    | some b =>
      have := ih.cons₂ (k a)
      simpa [List.filterMap_cons, hf, hfg a b hf] using this

theorem GetZFSLocalPVs_of_list_ok (u : Util) (c : K8sClient) (pvList : PersistentVolumeList)
    (openebsNS : String) (zvols : ZFSVolumeList × (String → Option ZFSVolume))
    (h : c.GetZFSVols [] .Map "" ⟨.Name⟩ = .ok zvols) :
    GetZFSLocalPVs u c pvList openebsNS =
      match zfsLoop (zfsLoopBody u zvols.2
          (controllerVersion (c.GetCSIControllerSTS "openebs-zfs-controller")) openebsNS)
          pvList.Items [] with
      | (w, .panicked m) => ⟨w, .panicked m⟩
      | (w, .ret rows) => ⟨w, .ret (rows, none)⟩ := by
  unfold GetZFSLocalPVs
  rw [h]

theorem GetZFSLocalPVs_of_list_error (u : Util) (c : K8sClient) (pvList : PersistentVolumeList)
    (openebsNS e : String) (h : c.GetZFSVols [] .Map "" ⟨.Name⟩ = .error e) :
    GetZFSLocalPVs u c pvList openebsNS = ⟨[], .ret ([], some "failed to list ZFSVolumes")⟩ := by
  unfold GetZFSLocalPVs
  rw [h]

theorem GetZFSLocalPVs_rows_cases (u : Util) (c : K8sClient) (pvList : PersistentVolumeList)
    (openebsNS : String) :
    (GetZFSLocalPVs u c pvList openebsNS).rows = [] ∨
    ∃ zvols, c.GetZFSVols [] .Map "" ⟨.Name⟩ = .ok zvols ∧
      (GetZFSLocalPVs u c pvList openebsNS).rows =
        pvList.Items.filterMap (fun pv => (zfsLoopBody u zvols.2
          (controllerVersion (c.GetCSIControllerSTS "openebs-zfs-controller")) openebsNS pv).2.row?) := by
  cases hl : c.GetZFSVols [] .Map "" ⟨.Name⟩ with
  | error e => left; simp [GetZFSLocalPVs, hl, ListRun.rows]
  | ok zvols =>
    rw [GetZFSLocalPVs_of_list_ok u c pvList openebsNS zvols hl]
    rcases hz : zfsLoop (zfsLoopBody u zvols.2
          (controllerVersion (c.GetCSIControllerSTS "openebs-zfs-controller")) openebsNS)
          pvList.Items [] with ⟨w, res⟩
    cases res with
    | panicked m => left; simp [ListRun.rows]
    | ret rows =>
      right
      refine ⟨zvols, rfl, ?_⟩
      have := zfsLoop_ret _ pvList.Items rows (by rw [hz])
      simp [ListRun.rows, this]

theorem GetZFSLocalPVs_mem_rows (u : Util) (c : K8sClient) (pvList : PersistentVolumeList)
    (openebsNS : String) (r : TableRow) (h : r ∈ (GetZFSLocalPVs u c pvList openebsNS).rows) :
    ∃ pv ∈ pvList.Items, RowBuiltFrom u c openebsNS pv r := by
  rcases GetZFSLocalPVs_rows_cases u c pvList openebsNS with h0 | ⟨zvols, hl, hrows⟩
  · rw [h0] at h; exact absurd h (List.not_mem_nil _)
  · rw [hrows, List.mem_filterMap] at h
    obtain ⟨pv, hpv, hrow⟩ := h
    refine ⟨pv, hpv, zvols, hl, ?_⟩
    cases hit : (zfsLoopBody u zvols.2
        (controllerVersion (c.GetCSIControllerSTS "openebs-zfs-controller")) openebsNS pv).2 with
    | row r1 =>
      rw [hit] at hrow
      simp only [Iter.row?, Option.some.injEq] at hrow
      rw [hrow]
    | skip => rw [hit] at hrow; simp [Iter.row?] at hrow
    | panicked m => rw [hit] at hrow; simp [Iter.row?] at hrow

/-- The cells of a row built by the loop, spelled out. -/
theorem zfsLoopBody_row (u : Util) (zvolMap : String → Option ZFSVolume)
    (version openebsNS : String) (pv : PersistentVolume) (r : TableRow)
    (h : (zfsLoopBody u zvolMap version openebsNS pv).2 = .row r) :
    isZFS u pv = true ∧
    ∃ zvol accessMode,
      zvol = (match zvolMap pv.Name with
        | some z => z
        | none => ZFSVolume.zero) ∧
      pv.Spec.AccessModes.head? = some accessMode ∧
      (openebsNS = "" ∨ openebsNS = zvol.Namespace) ∧
      r = ⟨[.str zvol.Namespace, .str pv.Name, .str zvol.Status.State, .str version,
        .str (u.ConvertToIBytes pv.Spec.Capacity.Storage.String), .str pv.Spec.StorageClassName,
        .phase pv.Status.Phase, .accessMode accessMode,
        .str (zvol.Labels.index "kubernetes.io/nodename")]⟩ := by
  cases hz : isZFS u pv with
  | false => rw [zfsLoopBody_not_zfs u zvolMap version openebsNS pv hz] at h; simp at h
  | true =>
    refine ⟨rfl, ?_⟩
    unfold isZFS at hz
    unfold zfsLoopBody at h
    cases hc : pv.Spec.CSI with
    | none => rw [hc] at hz; simp at hz
    | some csi =>
      rw [hc] at hz h
      have hd : csi.Driver = u.ZFSCSIDriver := by simpa using hz
      simp only [hd, if_true] at h
      split at h
      · simp at h
      · rename_i hns
        cases hm : pv.Spec.AccessModes with
        | nil => rw [hm] at h; simp at h
        | cons a rest =>
          rw [hm] at h
          simp only [Iter.row.injEq] at h
          refine ⟨_, a, rfl, by simp, ?_, h.symm⟩
          by_cases he : openebsNS = ""
          · exact Or.inl he
          · right
            by_contra hne
            exact hns ⟨he, hne⟩

theorem zfsLoopBody_panicked (u : Util) (zvolMap : String → Option ZFSVolume)
    (version openebsNS : String) (pv : PersistentVolume) (m : String)
    (h : (zfsLoopBody u zvolMap version openebsNS pv).2 = .panicked m) :
    isZFS u pv = true ∧ pv.Spec.AccessModes = [] := by
  cases hz : isZFS u pv with
  | false => rw [zfsLoopBody_not_zfs u zvolMap version openebsNS pv hz] at h; simp at h
  | true =>
    refine ⟨rfl, ?_⟩
    unfold zfsLoopBody at h
    cases hc : pv.Spec.CSI with
    | none => rw [hc] at h; simp at h
    | some csi =>
      rw [hc] at h
      simp only at h
      split at h
      · split at h
        · simp at h
        · cases hm : pv.Spec.AccessModes with
          | nil => rfl
          | cons a rest => rw [hm] at h; simp at h
      · simp at h

theorem isZFS_iff (u : Util) (pv : PersistentVolume) :
    isZFS u pv = true ↔ ∃ csi, pv.Spec.CSI = some csi ∧ csi.Driver = u.ZFSCSIDriver := by
  unfold isZFS
  cases pv.Spec.CSI <;> simp

theorem zfsLoopBody_present (u : Util) (zvolMap : String → Option ZFSVolume)
    (version openebsNS : String) (pv : PersistentVolume) (zv : ZFSVolume)
    (a : PersistentVolumeAccessMode) (rest : List PersistentVolumeAccessMode)
    (hz : isZFS u pv = true) (hv : zvolMap pv.Name = some zv)
    (hns : openebsNS = "" ∨ openebsNS = zv.Namespace) (hm : pv.Spec.AccessModes = a :: rest) :
    zfsLoopBody u zvolMap version openebsNS pv =
      ([], .row (zfsRow zv.Namespace pv.Name zv.Status.State version
        (u.ConvertToIBytes pv.Spec.Capacity.Storage.String) pv.Spec.StorageClassName
        pv.Status.Phase a (zv.Labels.index "kubernetes.io/nodename"))) := by
  obtain ⟨csi, hc, hd⟩ := (isZFS_iff u pv).mp hz
  unfold zfsLoopBody
  rw [hc]
  simp only [hd, if_true, hv, hm]
  have : ¬ (openebsNS ≠ "" ∧ openebsNS ≠ zv.Namespace) := by
    rintro ⟨h1, h2⟩
    rcases hns with h | h
    · exact h1 h
    · exact h2 h
  rw [if_neg this]
  rfl

theorem zfsLoopBody_other_namespace (u : Util) (zvolMap : String → Option ZFSVolume)
    (version openebsNS : String) (pv : PersistentVolume) (zv : ZFSVolume)
    (hz : isZFS u pv = true) (hv : zvolMap pv.Name = some zv)
    (he : openebsNS ≠ "") (hns : zv.Namespace ≠ openebsNS) :
    zfsLoopBody u zvolMap version openebsNS pv = ([], .skip) := by
  obtain ⟨csi, hc, hd⟩ := (isZFS_iff u pv).mp hz
  unfold zfsLoopBody
  rw [hc]
  simp only [hd, if_true, hv]
  rw [if_pos ⟨he, fun h => hns h.symm⟩]

/-- With a non-empty namespace filter, a ZFS PersistentVolume without a ZFS volume is skipped,
after the diagnostic: the zero value's empty namespace differs from the filter. -/
theorem zfsLoopBody_missing_filtered (u : Util) (zvolMap : String → Option ZFSVolume)
    (version openebsNS : String) (pv : PersistentVolume)
    (hz : isZFS u pv = true) (hv : zvolMap pv.Name = none) (he : openebsNS ≠ "") :
    zfsLoopBody u zvolMap version openebsNS pv =
      (["couldn't find zfs localpv volume " ++ pv.Name ++ "\n"], .skip) := by
  obtain ⟨csi, hc, hd⟩ := (isZFS_iff u pv).mp hz
  unfold zfsLoopBody
  rw [hc]
  simp only [hd, if_true, hv]
  rw [if_pos ⟨he, by simpa [ZFSVolume.zero, ZFSVolume.Namespace] using he⟩]

/-- A ZFS PersistentVolume that passes the namespace filter but has no access mode makes the
loop body panic at `pv.Spec.AccessModes[0]` (line 91). -/
theorem zfsLoopBody_no_access_mode (u : Util) (zvolMap : String → Option ZFSVolume)
    (version openebsNS : String) (pv : PersistentVolume) (zv : ZFSVolume)
    (hz : isZFS u pv = true) (hv : zvolMap pv.Name = some zv)
    (hns : openebsNS = "" ∨ openebsNS = zv.Namespace) (hm : pv.Spec.AccessModes = []) :
    zfsLoopBody u zvolMap version openebsNS pv = ([], .panicked indexPanic) := by
  obtain ⟨csi, hc, hd⟩ := (isZFS_iff u pv).mp hz
  unfold zfsLoopBody
  rw [hc]
  simp only [hd, if_true, hv, hm]
  have : ¬ (openebsNS ≠ "" ∧ openebsNS ≠ zv.Namespace) := by
    rintro ⟨h1, h2⟩
    rcases hns with h | h
    · exact h1 h
    · exact h2 h
  rw [if_neg this]

theorem GetZFSLocalPVs_no_panic (u : Util) (c : K8sClient) (pvList : PersistentVolumeList)
    (openebsNS : String) (zvols : ZFSVolumeList × (String → Option ZFSVolume))
    (hl : c.GetZFSVols [] .Map "" ⟨.Name⟩ = .ok zvols)
    (hp : ∀ pv ∈ pvList.Items, ∀ m, (zfsLoopBody u zvols.2
      (controllerVersion (c.GetCSIControllerSTS "openebs-zfs-controller")) openebsNS pv).2
        ≠ .panicked m) :
    (GetZFSLocalPVs u c pvList openebsNS).result =
      .ret (pvList.Items.filterMap (fun pv => (zfsLoopBody u zvols.2
        (controllerVersion (c.GetCSIControllerSTS "openebs-zfs-controller")) openebsNS pv).2.row?),
        none) := by
  rw [GetZFSLocalPVs_of_list_ok u c pvList openebsNS zvols hl]
  have h := zfsLoop_no_panic _ pvList.Items hp
  rcases hz : zfsLoop (zfsLoopBody u zvols.2
      (controllerVersion (c.GetCSIControllerSTS "openebs-zfs-controller")) openebsNS)
      pvList.Items [] with ⟨w, res⟩
  rw [hz] at h
  simp only at h
  rw [h]

/-! ## Claims on `GetZFSLocalPVs` -/

/-- C5: when the client fails to list the ZFS volumes, `GetZFSLocalPVs` returns no rows and the
error "failed to list ZFSVolumes", whatever the PersistentVolume list and the namespace filter;
nothing is produced from the PersistentVolume list (no row, no diagnostic). -/
theorem GetZFSLocalPVs_list_failure (u : Util) (c : K8sClient) (pvList : PersistentVolumeList)
    (openebsNS e : String) (h : c.GetZFSVols [] .Map "" ⟨.Name⟩ = .error e) :
    GetZFSLocalPVs u c pvList openebsNS = ⟨[], .ret ([], some "failed to list ZFSVolumes")⟩ := by
  unfold GetZFSLocalPVs
  rw [h]

theorem GetZFSLocalPVs_list_failure_witness :
    clusterListFails.GetZFSVols [] .Map "" ⟨.Name⟩ = .error "failed to list ZFSVolumes" ∧
    GetZFSLocalPVs sampleUtil clusterListFails ⟨[jivaPV1, zfsPV1]⟩ "openebs" =
      ⟨[], .ret ([], some "failed to list ZFSVolumes")⟩ :=
  ⟨rfl, GetZFSLocalPVs_list_failure sampleUtil clusterListFails ⟨[jivaPV1, zfsPV1]⟩ "openebs"
    "failed to list ZFSVolumes" rfl⟩

/-- C3: PersistentVolumes without a CSI descriptor, or of a driver other than the ZFS one, give
no row and no error: the whole outcome of `GetZFSLocalPVs` (diagnostics, rows, error, panic) is
the outcome on the list with these volumes removed; every returned row was built from a ZFS
volume of the list; and the loop body skips such a volume silently. -/
theorem GetZFSLocalPVs_excludes_other_drivers (u : Util) (c : K8sClient)
    (pvList : PersistentVolumeList) (openebsNS : String) :
    GetZFSLocalPVs u c pvList openebsNS =
      GetZFSLocalPVs u c ⟨pvList.Items.filter (isZFS u)⟩ openebsNS ∧
    (∀ r ∈ (GetZFSLocalPVs u c pvList openebsNS).rows,
      ∃ pv ∈ pvList.Items, isZFS u pv = true ∧ RowBuiltFrom u c openebsNS pv r) ∧
    (∀ zvolMap version pv, isZFS u pv = false →
      zfsLoopBody u zvolMap version openebsNS pv = ([], .skip)) := by
  refine ⟨?_, ?_, fun zvolMap version pv h => zfsLoopBody_not_zfs u zvolMap version openebsNS pv h⟩
  · cases hl : c.GetZFSVols [] .Map "" ⟨.Name⟩ with
    | error e =>
      rw [GetZFSLocalPVs_of_list_error u c pvList openebsNS e hl,
        GetZFSLocalPVs_of_list_error u c _ openebsNS e hl]
    | ok zvols =>
      rw [GetZFSLocalPVs_of_list_ok u c pvList openebsNS zvols hl,
        GetZFSLocalPVs_of_list_ok u c _ openebsNS zvols hl, zfsLoop_filter]
  · intro r hr
    obtain ⟨pv, hpv, zvols, hl, hrow⟩ := GetZFSLocalPVs_mem_rows u c pvList openebsNS r hr
    exact ⟨pv, hpv, (zfsLoopBody_row u _ _ openebsNS pv r hrow).1, zvols, hl, hrow⟩

theorem GetZFSLocalPVs_excludes_other_drivers_witness :
    GetZFSLocalPVs sampleUtil clusterOneVol ⟨[jivaPV1, zfsPV1, jivaPV1]⟩ "" =
      GetZFSLocalPVs sampleUtil clusterOneVol ⟨[zfsPV1]⟩ "" ∧
    isZFS sampleUtil jivaPV1 = false ∧
    zfsLoopBody sampleUtil (fun _ => some zfsVol1) "1.9.0" "" jivaPV1 = ([], .skip) :=
  ⟨(GetZFSLocalPVs_excludes_other_drivers sampleUtil clusterOneVol
      ⟨[jivaPV1, zfsPV1, jivaPV1]⟩ "").1, rfl,
    (GetZFSLocalPVs_excludes_other_drivers sampleUtil clusterOneVol ⟨[]⟩ "").2.2
      (fun _ => some zfsVol1) "1.9.0" jivaPV1 rfl⟩

/-- C7: `GetZFSLocalPVs` keeps the input order and gives at most one row per PersistentVolume:
the name cells of the returned rows are a subsequence of the names of `pvList.Items`, and there
is a strictly increasing map `f` from row indices to input indices such that row `i` was built
from the PersistentVolume at index `f i` (and carries its name in the second cell). -/
theorem GetZFSLocalPVs_rows_follow_input_order (u : Util) (c : K8sClient)
    (pvList : PersistentVolumeList) (openebsNS : String) :
    List.Sublist ((GetZFSLocalPVs u c pvList openebsNS).rows.map (fun r => r.Cells[1]?))
      (pvList.Items.map (fun pv => some (Cell.str pv.Name))) ∧
    ∃ f : ℕ → ℕ, StrictMono f ∧
      ∀ i r, (GetZFSLocalPVs u c pvList openebsNS).rows[i]? = some r →
        ∃ pv, pvList.Items[f i]? = some pv ∧ RowBuiltFrom u c openebsNS pv r ∧
          r.Cells[1]? = some (Cell.str pv.Name) := by
  rcases GetZFSLocalPVs_rows_cases u c pvList openebsNS with h0 | ⟨zvols, hl, hrows⟩
  · rw [h0]
    exact ⟨by simp, id, strictMono_id, by simp⟩
  · rw [hrows]
    have hname : ∀ pv r, (zfsLoopBody u zvols.2
        (controllerVersion (c.GetCSIControllerSTS "openebs-zfs-controller")) openebsNS pv).2.row?
          = some r → r.Cells[1]? = some (Cell.str pv.Name) := by
      intro pv r h
      obtain ⟨_, zvol, a, _, _, _, hr⟩ :=
        zfsLoopBody_row u _ _ openebsNS pv r ((Iter.row?_eq_some _ r).mp h)
      rw [hr]
      rfl
    refine ⟨filterMap_map_sublist _ _ _ hname pvList.Items, ?_⟩
    obtain ⟨f, hf⟩ := List.sublist_iff_exists_orderEmbedding_get?_eq.mp
      (filterMap_map_sublist (fun pv => (zfsLoopBody u zvols.2
        (controllerVersion (c.GetCSIControllerSTS "openebs-zfs-controller")) openebsNS pv).2.row?)
        some _ (fun _ _ h => h.symm) pvList.Items)
    refine ⟨f, f.strictMono, ?_⟩
    intro i r hi
    have h1 := hf i
    rw [List.get?_eq_getElem?, List.get?_eq_getElem?, List.getElem?_map, List.getElem?_map, hi]
      at h1
    cases hp : pvList.Items[f i]? with
    | none => rw [hp] at h1; simp at h1
    | some pv =>
      rw [hp] at h1
      have h2 : (zfsLoopBody u zvols.2
        (controllerVersion (c.GetCSIControllerSTS "openebs-zfs-controller")) openebsNS pv).2.row?
          = some r := by simpa using h1.symm
      exact ⟨pv, rfl, ⟨zvols, hl, (Iter.row?_eq_some _ r).mp h2⟩, hname pv r h2⟩

theorem GetZFSLocalPVs_rows_follow_input_order_witness :
    (GetZFSLocalPVs sampleUtil clusterOneVol ⟨[jivaPV1, zfsPV1, jivaPV1, zfsPV1]⟩ "").rows.map
      (fun r => r.Cells[1]?) = [some (Cell.str "pvc-1"), some (Cell.str "pvc-1")] ∧
    ∃ f : ℕ → ℕ, StrictMono f ∧
      ∀ i r, (GetZFSLocalPVs sampleUtil clusterOneVol
          ⟨[jivaPV1, zfsPV1, jivaPV1, zfsPV1]⟩ "").rows[i]? = some r →
        ∃ pv, ([jivaPV1, zfsPV1, jivaPV1, zfsPV1] : List PersistentVolume)[f i]? = some pv ∧
          RowBuiltFrom sampleUtil clusterOneVol "" pv r ∧
          r.Cells[1]? = some (Cell.str pv.Name) :=
  ⟨rfl, (GetZFSLocalPVs_rows_follow_input_order sampleUtil clusterOneVol
    ⟨[jivaPV1, zfsPV1, jivaPV1, zfsPV1]⟩ "").2⟩

/-- C4: namespace filtering in `GetZFSLocalPVs`. For a non-empty filter, every returned row has
the filter as its namespace cell, and a ZFS PersistentVolume whose ZFS volume lies in another
namespace is skipped by the loop. For the empty filter, every ZFS PersistentVolume that has a
ZFS volume of its name gets a row, whatever that volume's namespace; here the ZFS
PersistentVolumes of the list are those Kubernetes admits, with at least one access mode (the
row holds the first one). -/
theorem GetZFSLocalPVs_namespace_filter (u : Util) (c : K8sClient)
    (pvList : PersistentVolumeList) (openebsNS : String) :
    (openebsNS ≠ "" →
      (∀ r ∈ (GetZFSLocalPVs u c pvList openebsNS).rows,
        r.Cells[0]? = some (Cell.str openebsNS)) ∧
      (∀ zvolMap version pv zv, isZFS u pv = true → zvolMap pv.Name = some zv →
        zv.Namespace ≠ openebsNS →
          zfsLoopBody u zvolMap version openebsNS pv = ([], .skip))) ∧
    ((∀ pv ∈ pvList.Items, isZFS u pv = true → pv.Spec.AccessModes ≠ []) →
      EmptyFilterYieldsRow u c pvList) := by
  refine ⟨fun he => ⟨?_, ?_⟩, ?_⟩
  · intro r hr
    obtain ⟨pv, _, zvols, _, hrow⟩ := GetZFSLocalPVs_mem_rows u c pvList openebsNS r hr
    obtain ⟨_, zvol, a, _, _, hns, hcells⟩ := zfsLoopBody_row u _ _ openebsNS pv r hrow
    rcases hns with h | h
    · exact absurd h he
    · rw [hcells, h]
      rfl
  · intro zvolMap version pv zv hz hv hns
    exact zfsLoopBody_other_namespace u zvolMap version openebsNS pv zv hz hv he hns
  · intro hmodes pv hpv hz zvols hl zv hv
    have hnp : ∀ q ∈ pvList.Items, ∀ m, (zfsLoopBody u zvols.2
        (controllerVersion (c.GetCSIControllerSTS "openebs-zfs-controller")) "" q).2
          ≠ .panicked m := by
      intro q hq m hm
      obtain ⟨hqz, hqm⟩ := zfsLoopBody_panicked u _ _ "" q m hm
      exact hmodes q hq hqz hqm
    have hres := GetZFSLocalPVs_no_panic u c pvList "" zvols hl hnp
    cases hm : pv.Spec.AccessModes with
    | nil => exact absurd hm (hmodes pv hpv hz)
    | cons a rest =>
      have hb := zfsLoopBody_present u zvols.2
        (controllerVersion (c.GetCSIControllerSTS "openebs-zfs-controller")) "" pv zv a rest
        hz hv (Or.inl rfl) hm
      refine ⟨_, ?_, zvols, hl, by rw [hb]⟩
      unfold ListRun.rows
      rw [hres]
      simp only [List.mem_filterMap]
      exact ⟨pv, hpv, by rw [hb]; rfl⟩

theorem GetZFSLocalPVs_namespace_filter_witness :
    (∀ r ∈ (GetZFSLocalPVs sampleUtil clusterOneVol ⟨[jivaPV1, zfsPV1]⟩ "zfslocalpv").rows,
      r.Cells[0]? = some (Cell.str "zfslocalpv")) ∧
    (GetZFSLocalPVs sampleUtil clusterOneVol ⟨[jivaPV1, zfsPV1]⟩ "zfslocalpv").rows.length = 1 ∧
    zfsLoopBody sampleUtil (fun _ => some zfsVol1) "1.9.0" "other" zfsPV1 = ([], .skip) ∧
    (∀ pv ∈ [jivaPV1, zfsPV1], isZFS sampleUtil pv = true → pv.Spec.AccessModes ≠ []) ∧
    EmptyFilterYieldsRow sampleUtil clusterOneVol ⟨[jivaPV1, zfsPV1]⟩ := by
  have hmodes : ∀ pv ∈ [jivaPV1, zfsPV1], isZFS sampleUtil pv = true →
      pv.Spec.AccessModes ≠ [] := by
    intro pv hpv _
    simp only [List.mem_cons, List.mem_singleton, List.not_mem_nil, or_false] at hpv
    rcases hpv with rfl | rfl <;> simp [jivaPV1, zfsPV1, samplePV]
  exact ⟨((GetZFSLocalPVs_namespace_filter sampleUtil clusterOneVol ⟨[jivaPV1, zfsPV1]⟩
      "zfslocalpv").1 (by decide)).1, rfl,
    ((GetZFSLocalPVs_namespace_filter sampleUtil clusterOneVol ⟨[]⟩ "other").1 (by decide)).2
      (fun _ => some zfsVol1) "1.9.0" zfsPV1 zfsVol1 rfl rfl (by decide), hmodes,
    (GetZFSLocalPVs_namespace_filter sampleUtil clusterOneVol ⟨[jivaPV1, zfsPV1]⟩ "").2 hmodes⟩

/-- C8: every row returned by `GetZFSLocalPVs` has exactly nine cells, in this order: the ZFS
volume's namespace, the PersistentVolume's name, the ZFS volume's state, the controller version,
the capacity converted to IEC bytes, the storage class name, the phase, the first access mode,
and the ZFS volume's "kubernetes.io/nodename" label; and a list of one ZFS PersistentVolume
(first access mode `accessMode`, its ZFS volume present, the namespace filter matching) and one
PersistentVolume of another driver, in either order, gives a result of exactly one row, made
of these nine cells. -/
theorem GetZFSLocalPVs_row_cells (u : Util) (c : K8sClient) (pvList : PersistentVolumeList)
    (openebsNS : String) :
    (∀ r ∈ (GetZFSLocalPVs u c pvList openebsNS).rows,
      r.Cells.length = 9 ∧
      ∃ pv ∈ pvList.Items, ∃ accessMode ns state node,
        pv.Spec.AccessModes.head? = some accessMode ∧
        r = zfsRow ns pv.Name state
          (controllerVersion (c.GetCSIControllerSTS "openebs-zfs-controller"))
          (u.ConvertToIBytes pv.Spec.Capacity.Storage.String) pv.Spec.StorageClassName
          pv.Status.Phase accessMode node ∧
        ∀ zvols zv, c.GetZFSVols [] .Map "" ⟨.Name⟩ = .ok zvols → zvols.2 pv.Name = some zv →
          ns = zv.Namespace ∧ state = zv.Status.State ∧
          node = zv.Labels.index "kubernetes.io/nodename") ∧
    (∀ zpv npv zvols zv accessMode items,
      isZFS u zpv = true → isZFS u npv = false →
      c.GetZFSVols [] .Map "" ⟨.Name⟩ = .ok zvols → zvols.2 zpv.Name = some zv →
      (openebsNS = "" ∨ openebsNS = zv.Namespace) →
      zpv.Spec.AccessModes.head? = some accessMode →
      (items = [zpv, npv] ∨ items = [npv, zpv]) →
        ∃ rows, GetZFSLocalPVs u c ⟨items⟩ openebsNS = ⟨[], .ret (rows, none)⟩ ∧
          rows.length = 1 ∧
          rows = [zfsRow zv.Namespace zpv.Name zv.Status.State
            (controllerVersion (c.GetCSIControllerSTS "openebs-zfs-controller"))
            (u.ConvertToIBytes zpv.Spec.Capacity.Storage.String) zpv.Spec.StorageClassName
            zpv.Status.Phase accessMode (zv.Labels.index "kubernetes.io/nodename")]) := by
  constructor
  · intro r hr
    obtain ⟨pv, hpv, zvols, hl, hrow⟩ := GetZFSLocalPVs_mem_rows u c pvList openebsNS r hr
    obtain ⟨_, zvol, a, hzv, hhead, _, hcells⟩ := zfsLoopBody_row u _ _ openebsNS pv r hrow
    refine ⟨by rw [hcells]; rfl, pv, hpv, a, zvol.Namespace, zvol.Status.State,
      zvol.Labels.index "kubernetes.io/nodename", hhead, hcells, ?_⟩
    intro zvols1 zv hl1 hv
    rw [hl] at hl1
    have he : zvols = zvols1 := Except.ok.inj hl1
    rw [he, hv] at hzv
    simp only at hzv
    rw [hzv]
    exact ⟨rfl, rfl, rfl⟩
  · intro zpv npv zvols zv accessMode items hz hn hl hv hns hhead hitems
    cases hm : zpv.Spec.AccessModes with
    | nil => rw [hm] at hhead; simp at hhead
    | cons a rest =>
      rw [hm] at hhead
      have ha : a = accessMode := by simpa using hhead
      have hb1 := zfsLoopBody_present u zvols.2
        (controllerVersion (c.GetCSIControllerSTS "openebs-zfs-controller")) openebsNS zpv zv
        a rest hz hv hns hm
      have hb2 := zfsLoopBody_not_zfs u zvols.2
        (controllerVersion (c.GetCSIControllerSTS "openebs-zfs-controller")) openebsNS npv hn
      rw [GetZFSLocalPVs_of_list_ok u c _ openebsNS zvols hl]
      rcases hitems with h | h <;> rw [h] <;> simp [zfsLoop, hb1, hb2, ha]

theorem GetZFSLocalPVs_row_cells_witness :
    (∀ r ∈ (GetZFSLocalPVs sampleUtil clusterOneVol ⟨[jivaPV1, zfsPV1]⟩ "").rows,
      r.Cells.length = 9) ∧
    (GetZFSLocalPVs sampleUtil clusterOneVol ⟨[jivaPV1, zfsPV1]⟩ "").rows =
      [zfsRow "zfslocalpv" "pvc-1" "Ready" "1.9.0" "4.0GiB" "zfs-sc-1" ⟨"Bound"⟩
        ⟨"ReadWriteOnce"⟩ "node1"] ∧
    zfsPV1.Spec.AccessModes.head? = some ⟨"ReadWriteOnce"⟩ ∧
    ∃ rows, GetZFSLocalPVs sampleUtil clusterOneVol ⟨[zfsPV1, jivaPV1]⟩ "zfslocalpv" =
        ⟨[], .ret (rows, none)⟩ ∧ rows.length = 1 ∧
      rows = [zfsRow "zfslocalpv" "pvc-1" "Ready" "1.9.0" "4.0GiB" "zfs-sc-1" ⟨"Bound"⟩
        ⟨"ReadWriteOnce"⟩ "node1"] :=
  ⟨fun r hr => ((GetZFSLocalPVs_row_cells sampleUtil clusterOneVol ⟨[jivaPV1, zfsPV1]⟩ "").1
      r hr).1, rfl, rfl,
    (GetZFSLocalPVs_row_cells sampleUtil clusterOneVol ⟨[]⟩ "zfslocalpv").2 zfsPV1 jivaPV1
      (⟨[zfsVol1]⟩, fun n => [zfsVol1].find? (fun z => z.meta.Name == n)) zfsVol1
      ⟨"ReadWriteOnce"⟩ [zfsPV1, jivaPV1] rfl rfl rfl rfl (Or.inr rfl) rfl (Or.inl rfl)⟩

/-- C6: the version shown is "N/A" when the controller lookup fails or the workload found has
no, or an empty, "openebs.io/version" label, and is that label's value otherwise. It is the
fourth cell of every row of `GetZFSLocalPVs` and the Version field of what `DescribeZFSLocalPVs`
renders. Whatever the controller lookup answers, also a failure, `GetZFSLocalPVs` returns its
rows with a nil error when the ZFS volumes are listed, and `DescribeZFSLocalPVs` renders exactly
one description, carrying that version, and returns nil when the ZFS volume is found; an error
returned by either routine comes from the lookup of ZFS volumes. -/
theorem version_shown (u : Util) (c : K8sClient) :
    (∀ e, controllerVersion (.error e) = "N/A") ∧
    (∀ sts : StatefulSet, (sts.Labels "openebs.io/version" = none ∨
        sts.Labels "openebs.io/version" = some "") → controllerVersion (.ok sts) = "N/A") ∧
    (∀ (sts : StatefulSet) v, sts.Labels "openebs.io/version" = some v → v ≠ "" →
      controllerVersion (.ok sts) = v) ∧
    (∀ pvList openebsNS, ∀ r ∈ (GetZFSLocalPVs u c pvList openebsNS).rows,
      r.Cells[3]? = some (Cell.str
        (controllerVersion (c.GetCSIControllerSTS "openebs-zfs-controller")))) ∧
    (∀ vol, ∀ v ∈ (DescribeZFSLocalPVs u c vol).rendered,
      v.Version = controllerVersion (c.GetCSIControllerSTS u.ZFSLocalPVcsiControllerLabelValue)) ∧
    (∀ pvList openebsNS rows e,
      (GetZFSLocalPVs u c pvList openebsNS).result = .ret (rows, some e) →
        ∃ e1, c.GetZFSVols [] .Map "" ⟨.Name⟩ = .error e1) ∧
    (∀ vol e, (DescribeZFSLocalPVs u c (some vol)).result = .ret (some e) →
      c.GetZFSVols [vol.Name] .List "" ⟨.unset⟩ = .error e) ∧
    (∀ pv zvols zv accessMode openebsNS,
      isZFS u pv = true → c.GetZFSVols [] .Map "" ⟨.Name⟩ = .ok zvols →
      zvols.2 pv.Name = some zv → (openebsNS = "" ∨ openebsNS = zv.Namespace) →
      pv.Spec.AccessModes.head? = some accessMode →
        GetZFSLocalPVs u c ⟨[pv]⟩ openebsNS =
          ⟨[], .ret ([zfsRow zv.Namespace pv.Name zv.Status.State
            (controllerVersion (c.GetCSIControllerSTS "openebs-zfs-controller"))
            (u.ConvertToIBytes pv.Spec.Capacity.Storage.String) pv.Spec.StorageClassName
            pv.Status.Phase accessMode (zv.Labels.index "kubernetes.io/nodename")], none)⟩) ∧
    (∀ vol zvol rest m csi claimRef,
      c.GetZFSVols [vol.Name] .List "" ⟨.unset⟩ = .ok (⟨zvol :: rest⟩, m) →
      vol.Spec.CSI = some csi → vol.Spec.ClaimRef = some claimRef →
        ∃ v, DescribeZFSLocalPVs u c (some vol) = ⟨[v], .ret none⟩ ∧
          v.Version =
            controllerVersion (c.GetCSIControllerSTS u.ZFSLocalPVcsiControllerLabelValue) ∧
          v.Name = vol.Name ∧ v.Namespace = zvol.Namespace ∧ v.Status = zvol.Status.State) := by
  refine ⟨fun e => rfl, ?_, ?_, ?_, ?_, ?_, ?_, ?_, ?_⟩
  · intro sts h
    rcases h with h | h <;> simp [controllerVersion, StringMap.index, h]
  · intro sts v h hv
    simp [controllerVersion, StringMap.index, h, hv]
  · intro pvList openebsNS r hr
    obtain ⟨pv, _, zvols, _, hrow⟩ := GetZFSLocalPVs_mem_rows u c pvList openebsNS r hr
    obtain ⟨_, zvol, a, _, _, _, hcells⟩ := zfsLoopBody_row u _ _ openebsNS pv r hrow
    rw [hcells]
    rfl
  · intro vol v hv
    unfold DescribeZFSLocalPVs at hv
    split at hv
    · simp at hv
    · split at hv
      · simp at hv
      · split at hv
        · simp at hv
        · split at hv
          · simp at hv
          · split at hv
            · simp at hv
            · simp only [List.mem_singleton] at hv
              rw [hv]
  · intro pvList openebsNS rows e h
    cases hl : c.GetZFSVols [] .Map "" ⟨.Name⟩ with
    | error e1 => exact ⟨e1, rfl⟩
    | ok zvols =>
      rw [GetZFSLocalPVs_of_list_ok u c pvList openebsNS zvols hl] at h
      split at h <;> simp at h
  · intro vol e h
    unfold DescribeZFSLocalPVs at h
    simp only at h
    split at h
    · rename_i heq
      simp only [Result.ret.injEq, Option.some.injEq] at h
      rw [← h]
      exact heq
    · split at h
      · simp at h
      · split at h
        · simp at h
        · split at h <;> simp at h
  · intro pv zvols zv accessMode openebsNS hz hl hv hns hhead
    cases hm : pv.Spec.AccessModes with
    | nil => rw [hm] at hhead; simp at hhead
    | cons a rest =>
      rw [hm] at hhead
      have ha : a = accessMode := by simpa using hhead
      have hb := zfsLoopBody_present u zvols.2
        (controllerVersion (c.GetCSIControllerSTS "openebs-zfs-controller")) openebsNS pv zv
        a rest hz hv hns hm
      rw [GetZFSLocalPVs_of_list_ok u c _ openebsNS zvols hl]
      simp [zfsLoop, hb, ha]
  · intro vol zvol rest m csi claimRef hl hc hr
    unfold DescribeZFSLocalPVs
    simp only [hl, hc, hr]
    exact ⟨_, rfl, rfl, rfl, rfl, rfl⟩

theorem version_shown_witness :
    controllerVersion (.ok zfsCtrlSTS) = "1.9.0" ∧
    controllerVersion (.ok ⟨fun _ => none⟩) = "N/A" ∧
    (∀ r ∈ (GetZFSLocalPVs sampleUtil clusterOneVol ⟨[zfsPV1]⟩ "").rows,
      r.Cells[3]? = some (Cell.str "1.9.0")) ∧
    GetZFSLocalPVs sampleUtil clusterNoCtrl ⟨[zfsPV1]⟩ "" =
      ⟨[], .ret ([zfsRow "zfslocalpv" "pvc-1" "Ready" "N/A" "4.0GiB" "zfs-sc-1" ⟨"Bound"⟩
        ⟨"ReadWriteOnce"⟩ "node1"], none)⟩ ∧
    (∃ v, DescribeZFSLocalPVs sampleUtil clusterNoCtrl (some zfsPV1) = ⟨[v], .ret none⟩ ∧
      v.Version = "N/A" ∧ v.Name = "pvc-1" ∧ v.Namespace = "zfslocalpv" ∧
      v.Status = "Ready") ∧
    (∃ v, DescribeZFSLocalPVs sampleUtil clusterOneVol (some zfsPV1) = ⟨[v], .ret none⟩ ∧
      v.Version = "1.9.0" ∧ v.Name = "pvc-1" ∧ v.Namespace = "zfslocalpv" ∧
      v.Status = "Ready") ∧
    (DescribeZFSLocalPVs sampleUtil clusterNoCtrl (some zfsPV1)).rendered.map
      (fun v => v.Version) = ["N/A"] :=
  ⟨(version_shown sampleUtil clusterOneVol).2.2.1 zfsCtrlSTS "1.9.0" rfl (by decide),
    (version_shown sampleUtil clusterOneVol).2.1 ⟨fun _ => none⟩ (Or.inl rfl),
    (version_shown sampleUtil clusterOneVol).2.2.2.1 ⟨[zfsPV1]⟩ "",
    (version_shown sampleUtil clusterNoCtrl).2.2.2.2.2.2.2.1 zfsPV1
      (⟨[zfsVol1]⟩, fun n => [zfsVol1].find? (fun z => z.meta.Name == n)) zfsVol1
      ⟨"ReadWriteOnce"⟩ "" rfl rfl rfl (Or.inl rfl) rfl,
    (version_shown sampleUtil clusterNoCtrl).2.2.2.2.2.2.2.2 zfsPV1 zfsVol1 []
      (fun n => [zfsVol1].find? (fun z => z.meta.Name == n)) ⟨"zfs.csi.openebs.io"⟩
      ⟨"claim-1"⟩ rfl rfl rfl,
    (version_shown sampleUtil clusterOneVol).2.2.2.2.2.2.2.2 zfsPV1 zfsVol1 []
      (fun n => [zfsVol1].find? (fun z => z.meta.Name == n)) ⟨"zfs.csi.openebs.io"⟩
      ⟨"claim-1"⟩ rfl rfl rfl,
    rfl⟩

/-- C1: with the empty namespace filter, a ZFS PersistentVolume whose name has no ZFS volume in
the map is not omitted: after the diagnostic, the loop goes on with the zero-valued ZFS volume
and appends a row whose namespace, state and node cells are empty. -/
theorem GetZFSLocalPVs_missing_volume_empty_filter :
    isZFS sampleUtil zfsPV1 = true ∧
    (∃ zvols, clusterNoVol.GetZFSVols [] .Map "" ⟨.Name⟩ = .ok zvols ∧
      zvols.2 zfsPV1.Name = none) ∧
    GetZFSLocalPVs sampleUtil clusterNoVol ⟨[zfsPV1]⟩ "" =
      ⟨["couldn't find zfs localpv volume pvc-1\n"],
        .ret ([zfsRow "" "pvc-1" "" "1.9.0" "4.0GiB" "zfs-sc-1" ⟨"Bound"⟩
          ⟨"ReadWriteOnce"⟩ ""], none)⟩ :=
  ⟨rfl, ⟨_, rfl, rfl⟩, rfl⟩

/-! ## Claims on `DescribeZFSLocalPVs` -/

/-- When the lookup by name succeeds with an empty item list, `DescribeZFSLocalPVs` panics at
`zvols.Items[0]`, for every volume and client. -/
theorem DescribeZFSLocalPVs_empty_lookup (u : Util) (c : K8sClient) (vol : PersistentVolume)
    (m : String → Option ZFSVolume)
    (h : c.GetZFSVols [vol.Name] .List "" ⟨.unset⟩ = .ok (⟨[]⟩, m)) :
    DescribeZFSLocalPVs u c (some vol) = ⟨[], .panicked indexPanic⟩ := by
  unfold DescribeZFSLocalPVs
  simp only [h]

/-- C2: for a PersistentVolume whose name has no ZFS volume (the lookup succeeds with an empty
item list), `DescribeZFSLocalPVs` does not return an error: it renders nothing and panics with
an index out of range at `zvols.Items[0]`. -/
theorem DescribeZFSLocalPVs_missing_volume_panics :
    (∃ m, clusterNoVol.GetZFSVols [zfsPV1.Name] .List "" ⟨.unset⟩ = .ok (⟨[]⟩, m)) ∧
    DescribeZFSLocalPVs sampleUtil clusterNoVol (some zfsPV1) = ⟨[], .panicked indexPanic⟩ :=
  ⟨⟨_, rfl⟩, rfl⟩

/-! ## Claims on `pkg/upgrade/status` -/

/-- C9: when the pods of the job are listed, `getPodLogs` writes, in pod order, for every pod
its "From Pod: name" line immediately followed by the pod's log text, or by the line
"-> No recent logs from the pod" exactly when the fetched log is empty; after these it writes
"No pods are running for this job" if and only if the pod list is empty, and nothing else. -/
theorem getPodLogs_reports_every_pod (k : K8sClient) (name nspace : String) (podList : PodList)
    (h : k.GetPods ("job-name=" ++ name) "" nspace = .ok podList) :
    ∃ trailer, getPodLogs k name nspace =
        (podList.Items.map (fun pod => podReport pod.Name (k.GetPodLogs pod nspace))).flatten
          ++ trailer ∧
      (trailer = ["No pods are running for this job\n"] ↔ podList.Items = []) ∧
      (trailer = [] ↔ podList.Items ≠ []) := by
  have hbody : ∀ pod, podLogsBody k nspace pod = podReport pod.Name (k.GetPodLogs pod nspace) := by
    intro pod
    unfold podLogsBody podReport
    by_cases hl : k.GetPodLogs pod nspace = "" <;> simp [hl]
  have hfun : podLogsBody k nspace =
      fun pod => podReport pod.Name (k.GetPodLogs pod nspace) := funext hbody
  unfold getPodLogs
  rw [h]
  simp only [hfun]
  cases hi : podList.Items with
  | nil => exact ⟨_, rfl, by simp, by simp⟩
  | cons p ps => exact ⟨[], by simp, by simp, by simp⟩

theorem getPodLogs_reports_every_pod_witness :
    clusterOneJob.GetPods ("job-name=" ++ "jiva-upgrade-1") "" "openebs" =
      .ok ⟨[⟨"pod-a"⟩, ⟨"pod-b"⟩]⟩ ∧
    getPodLogs clusterOneJob "jiva-upgrade-1" "openebs" =
      ["From Pod: pod-a\n", "upgrade done\n",
        "From Pod: pod-b\n", "-> No recent logs from the pod", "\n"] ∧
    ∃ trailer, getPodLogs clusterOneJob "jiva-upgrade-1" "openebs" =
        (([⟨"pod-a"⟩, ⟨"pod-b"⟩] : List Pod).map
          (fun pod => podReport pod.Name (clusterOneJob.GetPodLogs pod "openebs"))).flatten
          ++ trailer ∧
      (trailer = ["No pods are running for this job\n"] ↔
        ([⟨"pod-a"⟩, ⟨"pod-b"⟩] : List Pod) = []) ∧
      (trailer = [] ↔ ([⟨"pod-a"⟩, ⟨"pod-b"⟩] : List Pod) ≠ []) :=
  ⟨rfl, by decide,
    getPodLogs_reports_every_pod clusterOneJob "jiva-upgrade-1" "openebs"
      ⟨[⟨"pod-a"⟩, ⟨"pod-b"⟩]⟩ rfl⟩

/-- With the wait flag set and no upgrade job found, `GetJobStatus` writes its message and then
panics in `startLogStream`, for every client and namespace. -/
theorem GetJobStatus_no_jobs_wait (k : K8sClient) (OpenebsNs : String)
    (h : k.GetBatchJobs OpenebsNs "cas-type=jiva,name=jiva-upgrade" = .ok ⟨[]⟩) :
    GetJobStatus k OpenebsNs true =
      ⟨["No upgrade-jobs Found in " ++ OpenebsNs ++ " namespace"], .panicked indexPanic⟩ := by
  unfold GetJobStatus
  simp [h, Run.andThen, Run.print, startLogStream]

/-- C10: with the wait flag set and an empty job list, `GetJobStatus` writes
"No upgrade-jobs Found", does not return, and calls `startLogStream`, which panics with an index
out of range at `jobList.Items[0]`; without the wait flag the same cluster gives a normal
return. -/
theorem GetJobStatus_empty_job_list_panics :
    clusterNoVol.GetBatchJobs "openebs" "cas-type=jiva,name=jiva-upgrade" = .ok ⟨[]⟩ ∧
    GetJobStatus clusterNoVol "openebs" true =
      ⟨["No upgrade-jobs Found in openebs namespace"], .panicked indexPanic⟩ ∧
    GetJobStatus clusterNoVol "openebs" false =
      ⟨["No upgrade-jobs Found in openebs namespace",
        "***************************************\n"], .returned⟩ :=
  ⟨rfl, rfl, rfl⟩

end Openebsctl
